import Mathlib

/-!
Verification model of the Neon serverless Postgres adapter
(src/adapter-postgres/drivers/neon.ts).

The adapter is glue between the Lucia authentication library and a
Postgres database reached through the Neon serverless driver.  We embed
it shallowly: the database is an explicit state of three tables (user,
session, key), each table a list of rows; a row is an association list
from column names to string values.  Single SQL statements are modelled
by pure functions on that state that either succeed or return a
structured error, mirroring the constraint violations Postgres raises
for the schema this adapter assumes (unique id columns, user_id foreign
keys).  Thrown JavaScript values are modelled by an inductive type whose
code and detail accessors behave like reading a possibly missing
property (returning none when absent).
-/

/-- A database row: association list from column name to value.
Column names are unique in a real row object. -/
abbrev Row := List (String × String)

/-- Read a column of a row; none when the column is absent
(like reading a missing property in JavaScript). -/
def Row.getField (r : Row) (f : String) : Option String :=
  (r.find? (fun p => p.1 = f)).map (fun p => p.2)

/-- The database state: the three logical tables of the adapter. -/
structure DBState where
  users : List Row
  sessions : List Row
  keys : List Row
deriving Repr, DecidableEq

/-- A JavaScript error value raised by the underlying driver or by
arbitrary code: possibly missing code and detail properties, plus a tag
standing for the identity of the thrown value. -/
structure Thrown where
  code : Option String
  detail : Option String
  tag : String
deriving Repr, DecidableEq

/-- Values that the adapter operations can raise:
a value thrown by the underlying layer, a LuciaError produced by the
caller-supplied constructor, or a plain configuration Error. -/
inductive Err where
  | thrown (t : Thrown)
  | lucia (id : String)
  | config (msg : String)
deriving Repr, DecidableEq

/-- Reading the code property of a caught value
(the source casts the caught value and reads error.code). -/
def Err.code : Err → Option String
  | .thrown t => t.code
  | _ => none

/-- Reading the detail property of a caught value. -/
def Err.detail : Err → Option String
  | .thrown t => t.detail
  | _ => none

/-- JavaScript String.prototype.includes on the detail property with
optional chaining: false when detail is absent. -/
def Err.detailIncludes (e : Err) (pat : String) : Bool :=
  match e.detail with
  | some d => decide (List.IsInfix pat.data d.data)
  | none => false

/-- The catch block of setUser with a key: code 23505 together with
detail containing Key (id) becomes AUTH_DUPLICATE_KEY_ID; every other
caught value is rethrown unchanged. -/
def setUserCatch (e : Err) : Err :=
  if e.code = some "23505" ∧ e.detailIncludes "Key (id)" then
    .lucia "AUTH_DUPLICATE_KEY_ID"
  else e

/-- The catch block of setSession: code 23503 together with detail
containing Key (user_id) becomes AUTH_INVALID_USER_ID; every other
caught value is rethrown unchanged. -/
def setSessionCatch (e : Err) : Err :=
  if e.code = some "23503" ∧ e.detailIncludes "Key (user_id)" then
    .lucia "AUTH_INVALID_USER_ID"
  else e

/-- The catch block of setKey: the 23503 Key (user_id) test first,
then the 23505 Key (id) test, otherwise rethrow unchanged. -/
def setKeyCatch (e : Err) : Err :=
  if e.code = some "23503" ∧ e.detailIncludes "Key (user_id)" then
    .lucia "AUTH_INVALID_USER_ID"
  else if e.code = some "23505" ∧ e.detailIncludes "Key (id)" then
    .lucia "AUTH_DUPLICATE_KEY_ID"
  else e

/-- The error Postgres raises for a uniqueness violation on an id
column: code 23505, detail naming the violated key. -/
def dupIdError (v : String) : Err :=
  .thrown ⟨some "23505", some ("Key (id)=(" ++ v ++ ") already exists."), "db"⟩

/-- The error Postgres raises for a foreign key violation on a user_id
column: code 23503, detail naming the violated key. -/
def fkUserError (v : String) : Err :=
  .thrown ⟨some "23503",
    some ("Key (user_id)=(" ++ v ++ ") is not present in table \"user\"."), "db"⟩

/-- A raw JavaScript thrown value as a catch clause receives it:
null or undefined (nullish), or a non-nullish value whose code and
detail properties may be missing (reading a property of a non-nullish
value never throws; reading one of a nullish value does). -/
inductive JSValue where
  | nullish
  | obj (t : Thrown)
deriving Repr, DecidableEq

/-- What a catch block ends up throwing at the raw JavaScript level:
the original value rethrown, a LuciaError built by the caller-supplied
constructor, or the TypeError raised by the property access error.code
on a nullish caught value. -/
inductive RawErr where
  | js (v : JSValue)
  | lucia (id : String)
  | typeError
deriving Repr, DecidableEq

/-- String.prototype.includes under optional chaining on the detail
property of a non-nullish caught value: false when detail is absent. -/
def Thrown.detailIncludes (t : Thrown) (pat : String) : Bool :=
  match t.detail with
  | some d => decide (List.IsInfix pat.data d.data)
  | none => false

/-- The catch block of setUser with a key at the raw JavaScript level:
error.code is read without optional chaining, so a nullish caught
value makes the block itself throw a TypeError; on a non-nullish value
the 23505 Key (id) test runs and every unmatched value is rethrown
unchanged. -/
def setUserCatchRaw (v : JSValue) : RawErr :=
  match v with
  | .nullish => .typeError
  | .obj t =>
    if t.code = some "23505" ∧ t.detailIncludes "Key (id)" then
      .lucia "AUTH_DUPLICATE_KEY_ID"
    else .js (.obj t)

/-- The catch block of setSession at the raw JavaScript level:
unguarded error.code access (TypeError on a nullish value), then the
23503 Key (user_id) test. -/
def setSessionCatchRaw (v : JSValue) : RawErr :=
  match v with
  | .nullish => .typeError
  | .obj t =>
    if t.code = some "23503" ∧ t.detailIncludes "Key (user_id)" then
      .lucia "AUTH_INVALID_USER_ID"
    else .js (.obj t)

/-- The catch block of setKey at the raw JavaScript level: unguarded
error.code access (TypeError on a nullish value), the 23503 test
first, then the 23505 test. -/
def setKeyCatchRaw (v : JSValue) : RawErr :=
  match v with
  | .nullish => .typeError
  | .obj t =>
    if t.code = some "23503" ∧ t.detailIncludes "Key (user_id)" then
      .lucia "AUTH_INVALID_USER_ID"
    else if t.code = some "23505" ∧ t.detailIncludes "Key (id)" then
      .lucia "AUTH_DUPLICATE_KEY_ID"
    else .js (.obj t)

/-- Whether some row of the table has the given id value. -/
def hasId (rows : List Row) (v : Option String) : Bool :=
  rows.any (fun r => decide (r.getField "id" = v))

/-- Whether some row of the user table has the given id value
(used for user_id foreign key checks). -/
def hasUserId (users : List Row) (v : Option String) : Bool :=
  users.any (fun r => decide (r.getField "id" = v))

/-- Semantics of INSERT into the user table: the id column is unique,
so a duplicate raises 23505; otherwise the row is appended. -/
def insertUser (db : DBState) (u : Row) : Except Err DBState :=
  if hasId db.users (u.getField "id") then
    .error (dupIdError ((u.getField "id").getD ""))
  else
    .ok { db with users := db.users ++ [u] }

/-- Semantics of INSERT into the key table: unique id (23505 on
violation) and user_id referencing an existing user (23503). -/
def insertKey (db : DBState) (k : Row) : Except Err DBState :=
  if hasId db.keys (k.getField "id") then
    .error (dupIdError ((k.getField "id").getD ""))
  else if !hasUserId db.users (k.getField "user_id") then
    .error (fkUserError ((k.getField "user_id").getD ""))
  else
    .ok { db with keys := db.keys ++ [k] }

/-- Semantics of INSERT into the session table: unique id (23505) and
user_id referencing an existing user (23503). -/
def insertSession (db : DBState) (s : Row) : Except Err DBState :=
  if hasId db.sessions (s.getField "id") then
    .error (dupIdError ((s.getField "id").getD ""))
  else if !hasUserId db.users (s.getField "user_id") then
    .error (fkUserError ((s.getField "user_id").getD ""))
  else
    .ok { db with sessions := db.sessions ++ [s] }

/-- The table-name configuration: the session table is optional
(the union TableWithSession | TableWithoutSession of the source). -/
structure Tables where
  user : String
  session : Option String
  key : String
deriving Repr, DecidableEq

/-- Modelled from the spec: escapeName from ../utils (not under src/) is
the external identifier-escaping helper; table names are escaped before
interpolation into SQL text. -/
def escapeName (s : String) : String :=
  "\"" ++ s ++ "\""

/-- Modelled from the spec: helper from ../utils (not under src/)
serializes a row object into its list of column names, the matching
positional placeholders, and the ordered argument list. -/
def helper (r : Row) : List String × List String × List String :=
  (r.map (fun p => p.1),
   (List.range r.length).map (fun i => "$" ++ toString (i + 1)),
   r.map (fun p => p.2))

/-- Modelled from the spec: getSetArgs from ../utils (not under src/)
builds the field = value list of an UPDATE SET clause from the field
names and the placeholders. -/
def getSetArgs (fields values : List String) : String :=
  String.intercalate ", " ((fields.zip values).map (fun p => p.1 ++ " = " ++ p.2))

/-- The SQL text of the user INSERT statement issued by setUser. -/
def insertUserSQL (tables : Tables) (u : Row) : String :=
  "INSERT INTO " ++ escapeName tables.user ++ " ( " ++
    String.intercalate ", " (helper u).1 ++ " ) VALUES ( " ++
    String.intercalate ", " (helper u).2.1 ++ " )"

/-- The SQL text of the key INSERT statement issued by setUser and setKey. -/
def insertKeySQL (tables : Tables) (k : Row) : String :=
  "INSERT INTO " ++ escapeName tables.key ++ " ( " ++
    String.intercalate ", " (helper k).1 ++ " ) VALUES ( " ++
    String.intercalate ", " (helper k).2.1 ++ " )"

/-- Actions performed on the dedicated transactional connection. -/
inductive ClientAction where
  | connect
  | beginTx
  | stmt (sql : String)
  | commitTx
  | rollbackTx
  | endConn
deriving Repr, DecidableEq

/-- The transaction combinator of the adapter: open a dedicated
connection, BEGIN, run the body, COMMIT on success; on failure issue
ROLLBACK (fire-and-forget: its own outcome is ignored, it is not
awaited) and rethrow the original error; in all cases end the
connection last.  The body runs against a transaction-local state that
becomes visible only through COMMIT; a failed body leaves the published
state unchanged.  Returns the result, the published state, and the
trace of connection actions. -/
def transaction (body : DBState → Except Err DBState × List String)
    (db : DBState) : Except Err Unit × DBState × List ClientAction :=
  match body db with
  | (.ok db2, stmts) =>
      (.ok (), db2,
       [.connect, .beginTx] ++ stmts.map .stmt ++ [.commitTx, .endConn])
  | (.error e, stmts) =>
      (.error e, db,
       [.connect, .beginTx] ++ stmts.map .stmt ++ [.rollbackTx, .endConn])

/-- The transaction body of setUser with a key: insert the user row,
then the key row, recording the statements issued. -/
def setUserBody (tables : Tables) (user k : Row)
    (s : DBState) : Except Err DBState × List String :=
  match insertUser s user with
  | .error e => (.error e, [insertUserSQL tables user])
  | .ok s2 =>
    match insertKey s2 k with
    | .error e => (.error e, [insertUserSQL tables user, insertKeySQL tables k])
    | .ok s3 => (.ok s3, [insertUserSQL tables user, insertKeySQL tables k])

/-- setUser: without a key, a single plain INSERT through the ambient
sql facility with no catch block (no connection actions); with a key,
the two inserts inside the transaction combinator, the caught error
passed through the setUser catch block. -/
def setUserModel (tables : Tables) (db : DBState) (user : Row)
    (key : Option Row) : Except Err Unit × DBState × List ClientAction :=
  match key with
  | none =>
    match insertUser db user with
    | .ok db2 => (.ok (), db2, [])
    | .error e => (.error e, db, [])
  | some k =>
    match transaction (setUserBody tables user k) db with
    | (.ok _, db2, tr) => (.ok (), db2, tr)
    | (.error e, db2, tr) => (.error (setUserCatch e), db2, tr)

/-- get: resolve the query and return the first row or null. -/
def get (rows : List Row) : Option Row :=
  rows.head?

/-- getAll: resolve the query and return all rows. -/
def getAll (rows : List Row) : List Row :=
  rows

/-- Semantics of SELECT * FROM t WHERE id = $1. -/
def selectById (rows : List Row) (v : String) : List Row :=
  rows.filter (fun r => decide (r.getField "id" = some v))

/-- Semantics of SELECT * FROM t WHERE user_id = $1. -/
def selectByUserId (rows : List Row) (v : String) : List Row :=
  rows.filter (fun r => decide (r.getField "user_id" = some v))

/-- getUser: single row lookup by id, null when absent. -/
def getUserModel (db : DBState) (userId : String) : Option Row :=
  get (selectById db.users userId)

/-- The configuration error thrown by every session operation when no
session table is configured. -/
def sessionTableError : Err :=
  .config "Session table not defined"

/-- Semantics of the SET clause of an UPDATE applied to one row: every
column named in the assignment list takes its new value, every other
column keeps its value (an UPDATE cannot add columns). -/
def applySetClause (r : Row) (p : Row) : Row :=
  r.map (fun fv =>
    match Row.getField p fv.1 with
    | some v => (fv.1, v)
    | none => fv)

/-- Semantics of UPDATE t SET ... WHERE id = v over a table. -/
def updateById (rows : List Row) (v : String) (p : Row) : List Row :=
  rows.map (fun r =>
    if r.getField "id" = some v then applySetClause r p else r)

/-- Semantics of DELETE FROM t WHERE id = v over a table. -/
def deleteById (rows : List Row) (v : String) : List Row :=
  rows.filter (fun r => !decide (r.getField "id" = some v))

/-- Semantics of DELETE FROM t WHERE user_id = v over a table. -/
def deleteByUserId (rows : List Row) (v : String) : List Row :=
  rows.filter (fun r => !decide (r.getField "user_id" = some v))

/-- The SQL text of the UPDATE statement built from helper and
getSetArgs, as in updateUser, updateSession and updateKey. -/
def updateSQL (escapedTable : String) (p : Row) : String :=
  "UPDATE " ++ escapedTable ++ " SET " ++
    getSetArgs (helper p).1 (helper p).2.1 ++
    " WHERE id = $" ++ toString ((helper p).1.length + 1)

/-- The SQL text of an INSERT built from helper, given the escaped
table name. -/
def insertSQL (escapedTable : String) (r : Row) : String :=
  "INSERT INTO " ++ escapedTable ++ " ( " ++
    String.intercalate ", " (helper r).1 ++ " ) VALUES ( " ++
    String.intercalate ", " (helper r).2.1 ++ " )"

/-- updateUser: UPDATE only the supplied fields of the row whose id
matches. -/
def updateUserModel (tables : Tables) (db : DBState) (userId : String)
    (p : Row) : DBState × List String :=
  ({ db with users := updateById db.users userId p },
   [updateSQL (escapeName tables.user) p])

/-- updateKey: UPDATE only the supplied fields of the row whose id
matches. -/
def updateKeyModel (tables : Tables) (db : DBState) (keyId : String)
    (p : Row) : DBState × List String :=
  ({ db with keys := updateById db.keys keyId p },
   [updateSQL (escapeName tables.key) p])

/-- setKey: plain INSERT through the ambient sql facility, the caught
error passed through the setKey catch block. -/
def setKeyModel (tables : Tables) (db : DBState) (k : Row) :
    Except Err Unit × DBState × List String :=
  match insertKey db k with
  | .ok db2 => (.ok (), db2, [insertSQL (escapeName tables.key) k])
  | .error e => (.error (setKeyCatch e), db, [insertSQL (escapeName tables.key) k])

/-- getSession: fails fast when no session table is configured,
otherwise a single row lookup passed through the external
transformDatabaseSession (supplied as a parameter, since the transform
lives in ../utils outside this file). -/
def getSessionModel (tables : Tables) (db : DBState) (sessionId : String)
    (transformDatabaseSession : Row → Row) :
    Except Err (Option Row) × List String :=
  match tables.session with
  | none => (.error sessionTableError, [])
  | some st =>
    let result := get (selectById db.sessions sessionId)
    (.ok (result.map transformDatabaseSession),
     ["SELECT * FROM " ++ escapeName st ++ " WHERE id = $1"])

/-- getSessionsByUserId: fails fast without a session table, otherwise
all rows of the user, each passed through the transform. -/
def getSessionsByUserIdModel (tables : Tables) (db : DBState)
    (userId : String) (transformDatabaseSession : Row → Row) :
    Except Err (List Row) × List String :=
  match tables.session with
  | none => (.error sessionTableError, [])
  | some st =>
    let result := getAll (selectByUserId db.sessions userId)
    (.ok (result.map transformDatabaseSession),
     ["SELECT * FROM " ++ escapeName st ++ " WHERE user_id = $1"])

/-- setSession: fails fast without a session table, otherwise a plain
INSERT with the setSession catch block. -/
def setSessionModel (tables : Tables) (db : DBState) (s : Row) :
    Except Err Unit × DBState × List String :=
  match tables.session with
  | none => (.error sessionTableError, db, [])
  | some st =>
    match insertSession db s with
    | .ok db2 => (.ok (), db2, [insertSQL (escapeName st) s])
    | .error e => (.error (setSessionCatch e), db, [insertSQL (escapeName st) s])

/-- deleteSession: fails fast without a session table, otherwise DELETE
by id. -/
def deleteSessionModel (tables : Tables) (db : DBState)
    (sessionId : String) : Except Err Unit × DBState × List String :=
  match tables.session with
  | none => (.error sessionTableError, db, [])
  | some st =>
    (.ok (), { db with sessions := deleteById db.sessions sessionId },
     ["DELETE FROM " ++ escapeName st ++ " WHERE id = $1"])

/-- deleteSessionsByUserId: fails fast without a session table,
otherwise DELETE by user_id. -/
def deleteSessionsByUserIdModel (tables : Tables) (db : DBState)
    (userId : String) : Except Err Unit × DBState × List String :=
  match tables.session with
  | none => (.error sessionTableError, db, [])
  | some st =>
    (.ok (), { db with sessions := deleteByUserId db.sessions userId },
     ["DELETE FROM " ++ escapeName st ++ " WHERE user_id = $1"])

/-- updateSession: fails fast without a session table, otherwise UPDATE
only the supplied fields of the row whose id matches. -/
def updateSessionModel (tables : Tables) (db : DBState)
    (sessionId : String) (p : Row) :
    Except Err Unit × DBState × List String :=
  match tables.session with
  | none => (.error sessionTableError, db, [])
  | some st =>
    (.ok (), { db with sessions := updateById db.sessions sessionId p },
     [updateSQL (escapeName st) p])

/-- Semantics of the join issued by getSessionAndUser:
SELECT user.*, session.id AS __session_id FROM session INNER JOIN user
ON user.id = session.user_id WHERE session.id = $1.  Each produced row
is the user columns with the extra __session_id column appended. -/
def joinUserBySessionId (db : DBState) (sessionId : String) : List Row :=
  (db.sessions.filter (fun s => decide (s.getField "id" = some sessionId))).flatMap
    (fun s =>
      (db.users.filter
          (fun u => decide (u.getField "id" = s.getField "user_id"))).map
        (fun u => u ++ [("__session_id", (s.getField "id").getD "")]))

/-- The rest destructuring of getSessionAndUser: drop the __session_id
column from the joined row before returning it as the user. -/
def stripSessionId (r : Row) : Row :=
  r.filter (fun p => decide (p.1 ≠ "__session_id"))

/-- getSessionAndUser: fails fast without a session table; otherwise
both lookups are issued, and the result is none (the [null, null] pair)
when either returns no row, else the transformed session row paired
with the joined user row with __session_id stripped. -/
def getSessionAndUserModel (tables : Tables) (db : DBState)
    (sessionId : String) (transformDatabaseSession : Row → Row) :
    Except Err (Option (Row × Row)) × List String :=
  match tables.session with
  | none => (.error sessionTableError, [])
  | some st =>
    let sessionResult := get (selectById db.sessions sessionId)
    let userFromJoinResult := get (joinUserBySessionId db sessionId)
    let sqls := ["SELECT * FROM " ++ escapeName st ++ " WHERE id = $1",
      "SELECT " ++ escapeName tables.user ++ ".*, " ++ escapeName st ++
        ".id as __session_id FROM " ++ escapeName st ++ " INNER JOIN " ++
        escapeName tables.user ++ " ON " ++ escapeName tables.user ++
        ".id = " ++ escapeName st ++ ".user_id WHERE " ++ escapeName st ++
        ".id = $1"]
    match sessionResult, userFromJoinResult with
    | some s, some uj =>
        (.ok (some (transformDatabaseSession s, stripSessionId uj)), sqls)
    | _, _ => (.ok none, sqls)

/-- Uniqueness of the id column across a table, as enforced by the
primary key / unique constraints the adapter schema assumes. -/
def uniqueById (rows : List Row) : Prop :=
  rows.Pairwise (fun a b => a.getField "id" ≠ b.getField "id")

lemma get_def (rows : List Row) : get rows = rows.head? := rfl

lemma getField_append (r1 r2 : Row) (f : String) :
    Row.getField (r1 ++ r2) f =
      (Row.getField r1 f).or (Row.getField r2 f) := by
  unfold Row.getField
  rw [List.find?_append]
  cases r1.find? (fun p => p.1 = f) <;> simp

lemma find?_filter_key (r : Row) (f f0 : String) (h : f ≠ f0) :
    (r.filter (fun p => decide (p.1 ≠ f0))).find? (fun p => p.1 = f) =
      r.find? (fun p => p.1 = f) := by
  rw [List.find?_filter]
  have hpred : (fun a : String × String =>
      decide (decide (a.1 ≠ f0) = true ∧ decide (a.1 = f) = true)) =
      (fun p : String × String => decide (p.1 = f)) := by
    funext a
    by_cases hf : a.1 = f
    · have hne : a.1 ≠ f0 := by rw [hf]; exact h
      simp [hf, hne, h]
    · simp [hf]
  rw [hpred]

lemma getField_strip_ne (r : Row) (f : String) (h : f ≠ "__session_id") :
    Row.getField (stripSessionId r) f = Row.getField r f := by
  unfold stripSessionId Row.getField
  rw [find?_filter_key r f "__session_id" h]

lemma getField_strip_self (r : Row) :
    Row.getField (stripSessionId r) "__session_id" = none := by
  unfold stripSessionId Row.getField
  have : (r.filter (fun p => decide (p.1 ≠ "__session_id"))).find?
      (fun p => p.1 = "__session_id") = none := by
    rw [List.find?_eq_none]
    intro x hx
    have := (List.mem_filter.mp hx).2
    simpa using this
  rw [this]
  rfl

lemma getField_applySetClause (r p : Row) (f : String) :
    Row.getField (applySetClause r p) f =
      (Row.getField r f).map (fun v => (Row.getField p f).getD v) := by
  unfold applySetClause
  have hfind : (r.map (fun fv : String × String =>
      match Row.getField p fv.1 with
      | some v => (fv.1, v)
      | none => fv)).find? (fun q => q.1 = f) =
      ((r.find? (fun q => q.1 = f)).map (fun fv : String × String =>
        match Row.getField p fv.1 with
        | some v => (fv.1, v)
        | none => fv)) := by
    rw [List.find?_map]
    have hpp : ((fun q : String × String => decide (q.1 = f)) ∘
        fun fv : String × String =>
        match Row.getField p fv.1 with
        | some v => (fv.1, v)
        | none => fv) = (fun q : String × String => decide (q.1 = f)) := by
      funext q
      simp only [Function.comp_apply]
      cases Row.getField p q.1 <;> rfl
    rw [hpp]
  unfold Row.getField at hfind ⊢
  rw [hfind]
  cases hf : r.find? (fun q => decide (q.1 = f)) with
  | none => rfl
  | some q =>
    have hq : q.1 = f := by simpa using List.find?_some hf
    subst hq
    cases hpv : (p.find? (fun q2 => decide (q2.1 = q.1))).map
        (fun q2 => q2.2) with
    | none => simp [hpv]
    | some v => simp [hpv]

lemma hasId_false_filter (rows : List Row) (v : String)
    (h : hasId rows (some v) = false) :
    rows.filter (fun r => decide (r.getField "id" = some v)) = [] := by
  rw [List.filter_eq_nil_iff]
  intro a ha
  unfold hasId at h
  rw [List.any_eq_false] at h
  simpa using h a ha

lemma filter_head_unique (rows : List Row) (v : String)
    (h : uniqueById rows) (s : Row)
    (hs : (rows.filter (fun r => decide (r.getField "id" = some v))).head? =
      some s) :
    rows.filter (fun r => decide (r.getField "id" = some v)) = [s] := by
  have hpw : (rows.filter (fun r => decide (r.getField "id" = some v))).Pairwise
      (fun a b => a.getField "id" ≠ b.getField "id") :=
    List.Pairwise.filter _ h
  cases hl : rows.filter (fun r => decide (r.getField "id" = some v)) with
  | nil => rw [hl] at hs; cases hs
  | cons a t =>
    rw [hl] at hs
    have ha : a = s := by
      have := hs
      simp only [List.head?_cons, Option.some.injEq] at this
      exact this
    rw [hl] at hpw
    have hat := (List.pairwise_cons.mp hpw).1
    have hmem : ∀ x ∈ a :: t, Row.getField x "id" = some v := by
      intro x hx
      have hx2 : x ∈ rows.filter (fun r => decide (r.getField "id" = some v)) :=
        hl ▸ hx
      have := (List.mem_filter.mp hx2).2
      simpa using this
    have ht : t = [] := by
      cases t with
      | nil => rfl
      | cons b tb =>
        have h1 := hmem a (by simp)
        have h2 := hmem b (by simp)
        exact absurd (h1.trans h2.symm) (hat b (by simp))
    rw [ha, ht]

lemma trace_last (pre : List ClientAction) (a b : ClientAction) :
    (pre ++ [a, b]).getLast? = some b := by
  rw [List.getLast?_append_of_ne_nil pre (by simp)]
  rfl

/-- C3: every session-table operation (getSession, getSessionsByUserId,
setSession, deleteSession, deleteSessionsByUserId, updateSession,
getSessionAndUser) invoked when no session table is configured fails
immediately with the configuration error "Session table not defined",
the state untouched and no SQL statement issued; the error is a plain
Error, not a database error or a LuciaError. -/
theorem sessionOps_fail_fast_without_table (tu tk : String) (db : DBState)
    (sid uid : String) (s p : Row) (tf : Row → Row) :
    getSessionModel ⟨tu, none, tk⟩ db sid tf = (.error sessionTableError, []) ∧
    getSessionsByUserIdModel ⟨tu, none, tk⟩ db uid tf =
      (.error sessionTableError, []) ∧
    setSessionModel ⟨tu, none, tk⟩ db s = (.error sessionTableError, db, []) ∧
    deleteSessionModel ⟨tu, none, tk⟩ db sid =
      (.error sessionTableError, db, []) ∧
    deleteSessionsByUserIdModel ⟨tu, none, tk⟩ db uid =
      (.error sessionTableError, db, []) ∧
    updateSessionModel ⟨tu, none, tk⟩ db sid p =
      (.error sessionTableError, db, []) ∧
    getSessionAndUserModel ⟨tu, none, tk⟩ db sid tf =
      (.error sessionTableError, []) ∧
    sessionTableError = .config "Session table not defined" :=
  ⟨rfl, rfl, rfl, rfl, rfl, rfl, rfl, rfl⟩

/-- C7: on every exit path of the transaction combinator the dedicated
connection is closed (the last connection action is end); on the
failure path a ROLLBACK is issued (fire-and-forget, its outcome
ignored), the published state is unchanged and the original error of
the body is rethrown; on the success path a COMMIT and no ROLLBACK is
issued. -/
theorem transaction_resource_discipline
    (body : DBState → Except Err DBState × List String) (db : DBState) :
    ((transaction body db).2.2).getLast? = some ClientAction.endConn ∧
    (∀ e, (transaction body db).1 = .error e →
      ClientAction.rollbackTx ∈ (transaction body db).2.2 ∧
      (body db).1 = .error e ∧ (transaction body db).2.1 = db) ∧
    ((transaction body db).1 = .ok () →
      ClientAction.commitTx ∈ (transaction body db).2.2 ∧
      ClientAction.rollbackTx ∉ (transaction body db).2.2) := by
  rcases hb : body db with ⟨res, stmts⟩
  cases res with
  | ok db2 =>
    refine ⟨?_, ?_, ?_⟩
    · show (transaction body db).2.2.getLast? = some ClientAction.endConn
      simp only [transaction, hb]
      exact trace_last _ _ _
    · intro e he
      simp only [transaction, hb] at he
      cases he
    · intro _
      simp only [transaction, hb]
      constructor
      · simp
      · simp
  | error e0 =>
    refine ⟨?_, ?_, ?_⟩
    · simp only [transaction, hb]
      exact trace_last _ _ _
    · intro e he
      simp only [transaction, hb] at he ⊢
      injection he with h
      subst h
      refine ⟨by simp, by simp, by simp⟩
    · intro he
      simp only [transaction, hb] at he
      cases he

/-- C2: the error-translation of the adapter: a caught value with code
23505 and detail containing "Key (id)" becomes the LuciaError
AUTH_DUPLICATE_KEY_ID in setUser-with-key and in setKey; a caught value
with code 23503 and detail containing "Key (user_id)" becomes
AUTH_INVALID_USER_ID in setSession and in setKey; any other caught
value passes through each catch block unchanged. -/
theorem errorTranslation_domain_errors (e : Err) :
    (e.code = some "23505" → e.detailIncludes "Key (id)" = true →
      setUserCatch e = .lucia "AUTH_DUPLICATE_KEY_ID" ∧
      setKeyCatch e = .lucia "AUTH_DUPLICATE_KEY_ID") ∧
    (e.code = some "23503" → e.detailIncludes "Key (user_id)" = true →
      setSessionCatch e = .lucia "AUTH_INVALID_USER_ID" ∧
      setKeyCatch e = .lucia "AUTH_INVALID_USER_ID") ∧
    (¬(e.code = some "23505" ∧ e.detailIncludes "Key (id)" = true) →
      setUserCatch e = e) ∧
    (¬(e.code = some "23503" ∧ e.detailIncludes "Key (user_id)" = true) →
      setSessionCatch e = e) ∧
    (¬(e.code = some "23505" ∧ e.detailIncludes "Key (id)" = true) →
      ¬(e.code = some "23503" ∧ e.detailIncludes "Key (user_id)" = true) →
      setKeyCatch e = e) := by
  refine ⟨?_, ?_, ?_, ?_, ?_⟩
  · intro h1 h2
    constructor
    · unfold setUserCatch
      rw [if_pos ⟨h1, h2⟩]
    · unfold setKeyCatch
      have hne : ¬(e.code = some "23503" ∧ e.detailIncludes "Key (user_id)" = true) := by
        rintro ⟨hc, -⟩
        rw [h1] at hc
        simp at hc
      rw [if_neg hne, if_pos ⟨h1, h2⟩]
  · intro h1 h2
    constructor
    · unfold setSessionCatch
      rw [if_pos ⟨h1, h2⟩]
    · unfold setKeyCatch
      rw [if_pos ⟨h1, h2⟩]
  · intro hne
    unfold setUserCatch
    rw [if_neg hne]
  · intro hne
    unfold setSessionCatch
    rw [if_neg hne]
  · intro hne1 hne2
    unfold setKeyCatch
    rw [if_neg hne2, if_neg hne1]

/-- C10 counterexample: the claim fails on the code for a nullish
thrown value: error.code is read without optional chaining, so a
catch block that catches null or undefined itself throws a TypeError,
a new failure, instead of rethrowing the original value unchanged. -/
theorem catchBlocks_nullish_typeError :
    setUserCatchRaw .nullish = .typeError ∧
    setSessionCatchRaw .nullish = .typeError ∧
    setKeyCatchRaw .nullish = .typeError ∧
    setUserCatchRaw .nullish ≠ .js .nullish ∧
    setSessionCatchRaw .nullish ≠ .js .nullish ∧
    setKeyCatchRaw .nullish ≠ .js .nullish := by
  refine ⟨rfl, rfl, rfl, ?_, ?_, ?_⟩ <;> (intro h; cases h)

/-- C10 (amended): the catch-block classification is total over
arbitrary non-nullish thrown values: a non-nullish value without a
code property, without a detail property (optional chaining makes the
includes test false), or whose detail does not contain the matched
substring passes through every catch block rethrown unchanged with no
new failure; a nullish thrown value instead makes every catch block
itself throw a TypeError at the unguarded error.code access. -/
theorem catchBlocks_total_on_nonnullish_values (t : Thrown) :
    (t.code = none →
      setUserCatchRaw (.obj t) = .js (.obj t) ∧
      setSessionCatchRaw (.obj t) = .js (.obj t) ∧
      setKeyCatchRaw (.obj t) = .js (.obj t)) ∧
    (t.detail = none →
      t.detailIncludes "Key (id)" = false ∧
      t.detailIncludes "Key (user_id)" = false ∧
      setUserCatchRaw (.obj t) = .js (.obj t) ∧
      setSessionCatchRaw (.obj t) = .js (.obj t) ∧
      setKeyCatchRaw (.obj t) = .js (.obj t)) ∧
    (t.detailIncludes "Key (id)" = false ∧
      t.detailIncludes "Key (user_id)" = false →
      setUserCatchRaw (.obj t) = .js (.obj t) ∧
      setSessionCatchRaw (.obj t) = .js (.obj t) ∧
      setKeyCatchRaw (.obj t) = .js (.obj t)) ∧
    (setUserCatchRaw .nullish = .typeError ∧
     setSessionCatchRaw .nullish = .typeError ∧
     setKeyCatchRaw .nullish = .typeError) := by
  have hmain : t.detailIncludes "Key (id)" = false ∧
      t.detailIncludes "Key (user_id)" = false →
      setUserCatchRaw (.obj t) = .js (.obj t) ∧
      setSessionCatchRaw (.obj t) = .js (.obj t) ∧
      setKeyCatchRaw (.obj t) = .js (.obj t) := by
    rintro ⟨h1, h2⟩
    refine ⟨?_, ?_, ?_⟩
    · simp only [setUserCatchRaw]
      rw [if_neg]
      rintro ⟨-, hc⟩
      rw [h1] at hc
      cases hc
    · simp only [setSessionCatchRaw]
      rw [if_neg]
      rintro ⟨-, hc⟩
      rw [h2] at hc
      cases hc
    · simp only [setKeyCatchRaw]
      rw [if_neg, if_neg]
      · rintro ⟨-, hc⟩
        rw [h1] at hc
        cases hc
      · rintro ⟨-, hc⟩
        rw [h2] at hc
        cases hc
  refine ⟨?_, ?_, hmain, rfl, rfl, rfl⟩
  · intro hc
    refine ⟨?_, ?_, ?_⟩
    · simp only [setUserCatchRaw]
      rw [if_neg]
      rintro ⟨h1, -⟩
      rw [hc] at h1
      cases h1
    · simp only [setSessionCatchRaw]
      rw [if_neg]
      rintro ⟨h1, -⟩
      rw [hc] at h1
      cases h1
    · simp only [setKeyCatchRaw]
      rw [if_neg, if_neg]
      · rintro ⟨h1, -⟩
        rw [hc] at h1
        cases h1
      · rintro ⟨h1, -⟩
        rw [hc] at h1
        cases h1
  · intro hd
    have h1 : t.detailIncludes "Key (id)" = false := by
      unfold Thrown.detailIncludes
      rw [hd]
    have h2 : t.detailIncludes "Key (user_id)" = false := by
      unfold Thrown.detailIncludes
      rw [hd]
    exact ⟨h1, h2, hmain ⟨h1, h2⟩⟩

/-- C6: setUser without a key performs a plain single INSERT with no
catch block: the underlying result, success or any error, propagates
to the caller unchanged; in particular a duplicate-user-id uniqueness
violation (code 23505) surfaces as the raw database error and is never
turned into a LuciaError. -/
theorem setUser_without_key_no_translation (tables : Tables) (db : DBState)
    (u : Row) :
    (∀ e, insertUser db u = .error e →
      setUserModel tables db u none = (.error e, db, [])) ∧
    (∀ db2, insertUser db u = .ok db2 →
      setUserModel tables db u none = (.ok (), db2, [])) ∧
    (hasId db.users (u.getField "id") = true →
      setUserModel tables db u none =
        (.error (dupIdError ((u.getField "id").getD "")), db, []) ∧
      ∀ s, (setUserModel tables db u none).1 ≠ .error (.lucia s)) := by
  refine ⟨?_, ?_, ?_⟩
  · intro e he
    unfold setUserModel
    rw [he]
  · intro db2 hok
    unfold setUserModel
    rw [hok]
  · intro hdup
    have he : insertUser db u = .error (dupIdError ((u.getField "id").getD "")) := by
      unfold insertUser
      rw [if_pos hdup]
    constructor
    · unfold setUserModel
      rw [he]
    · intro s
      unfold setUserModel
      rw [he]
      unfold dupIdError
      intro hcontra
      cases hcontra

/-- C5: getUser returns the stored row: after a successful insert of a
user the lookup of its id returns exactly the inserted row, and the
lookup of an id no stored row carries returns null. -/
theorem getUser_returns_stored_row (db db2 : DBState) (u : Row)
    (uid : String) :
    (insertUser db u = .ok db2 → Row.getField u "id" = some uid →
      getUserModel db2 uid = some u) ∧
    ((∀ r ∈ db.users, Row.getField r "id" ≠ some uid) →
      getUserModel db uid = none) := by
  constructor
  · intro hok hid
    unfold insertUser at hok
    rw [hid] at hok
    by_cases hdup : hasId db.users (some uid) = true
    · rw [if_pos hdup] at hok
      cases hok
    · rw [if_neg hdup] at hok
      injection hok with h
      subst h
      unfold getUserModel selectById
      rw [get_def, List.filter_append]
      have hnil : db.users.filter
          (fun r => decide (r.getField "id" = some uid)) = [] :=
        hasId_false_filter db.users uid (by simpa using hdup)
      rw [hnil]
      simp [List.filter, hid]
  · intro hall
    unfold getUserModel selectById
    rw [get_def]
    have hnil : db.users.filter
        (fun r => decide (r.getField "id" = some uid)) = [] := by
      rw [List.filter_eq_nil_iff]
      intro a ha
      simpa using hall a ha
    rw [hnil]
    rfl

/-- C5 witness: a concrete round trip of the getUser theorem: the
inserted user is returned by its id, and a missing id returns null. -/
theorem getUser_returns_stored_row_witness :
    getUserModel ⟨[[("id", "u1")]], [], []⟩ "u1" = some [("id", "u1")] ∧
    getUserModel ⟨[[("id", "u1")]], [], []⟩ "zz" = none := by
  constructor
  · exact (getUser_returns_stored_row ⟨[], [], []⟩ ⟨[[("id", "u1")]], [], []⟩
      [("id", "u1")] "u1").1 rfl rfl
  · exact (getUser_returns_stored_row ⟨[[("id", "u1")]], [], []⟩
      ⟨[[("id", "u1")]], [], []⟩ [("id", "u1")] "zz").2 (by decide)

/-- C1: setUser with a key runs both inserts inside one explicit
transaction on a dedicated connection (connect, BEGIN, user insert,
key insert, COMMIT, end); when either insert fails a ROLLBACK appears
in the trace, an error is rethrown, the published state is unchanged,
and a user id that was not visible before the call is still not
visible after it (getUser returns null). -/
theorem setUserWithKey_atomic (tables : Tables) (db : DBState) (u k : Row) :
    (∀ d1 d2, insertUser db u = .ok d1 → insertKey d1 k = .ok d2 →
      setUserModel tables db u (some k) =
        (.ok (), d2,
         [ClientAction.connect, ClientAction.beginTx,
          ClientAction.stmt (insertUserSQL tables u),
          ClientAction.stmt (insertKeySQL tables k),
          ClientAction.commitTx, ClientAction.endConn])) ∧
    (∀ e, (setUserModel tables db u (some k)).1 = .error e →
      (setUserModel tables db u (some k)).2.1 = db ∧
      ClientAction.rollbackTx ∈ (setUserModel tables db u (some k)).2.2) ∧
    (∀ e uid, (setUserModel tables db u (some k)).1 = .error e →
      Row.getField u "id" = some uid → getUserModel db uid = none →
      getUserModel (setUserModel tables db u (some k)).2.1 uid = none) := by
  have hstate : ∀ e, (setUserModel tables db u (some k)).1 = .error e →
      (setUserModel tables db u (some k)).2.1 = db ∧
      ClientAction.rollbackTx ∈ (setUserModel tables db u (some k)).2.2 := by
    intro e he
    rcases hsb : setUserBody tables u k db with ⟨res, stmts⟩
    cases res with
    | ok d =>
      simp only [setUserModel, transaction, hsb] at he
      cases he
    | error e0 =>
      simp only [setUserModel, transaction, hsb] at he ⊢
      exact ⟨by simp, by simp⟩
  refine ⟨?_, hstate, ?_⟩
  · intro d1 d2 h1 h2
    have hb : setUserBody tables u k db =
        (.ok d2, [insertUserSQL tables u, insertKeySQL tables k]) := by
      unfold setUserBody
      simp only [h1, h2]
    simp only [setUserModel, transaction, hb]
    rfl
  · intro e uid he hid hnone
    rw [(hstate e he).1]
    exact hnone

/-- C1 witness: a concrete failed setUser-with-key: inserting user u2
with a key whose id already exists fails, the trace contains a
ROLLBACK, the state is unchanged and getUser of u2 still returns null. -/
theorem setUserWithKey_atomic_witness :
    ((setUserModel ⟨"u", some "s", "k"⟩
        ⟨[[("id", "u1")]], [], [[("id", "k1"), ("user_id", "u1")]]⟩
        [("id", "u2")] (some [("id", "k1"), ("user_id", "u2")])).1 =
      .error (.lucia "AUTH_DUPLICATE_KEY_ID")) ∧
    (setUserModel ⟨"u", some "s", "k"⟩
        ⟨[[("id", "u1")]], [], [[("id", "k1"), ("user_id", "u1")]]⟩
        [("id", "u2")] (some [("id", "k1"), ("user_id", "u2")])).2.1 =
      ⟨[[("id", "u1")]], [], [[("id", "k1"), ("user_id", "u1")]]⟩ ∧
    ClientAction.rollbackTx ∈ (setUserModel ⟨"u", some "s", "k"⟩
        ⟨[[("id", "u1")]], [], [[("id", "k1"), ("user_id", "u1")]]⟩
        [("id", "u2")] (some [("id", "k1"), ("user_id", "u2")])).2.2 ∧
    getUserModel (setUserModel ⟨"u", some "s", "k"⟩
        ⟨[[("id", "u1")]], [], [[("id", "k1"), ("user_id", "u1")]]⟩
        [("id", "u2")] (some [("id", "k1"), ("user_id", "u2")])).2.1 "u2" =
      none := by
  have h := setUserWithKey_atomic ⟨"u", some "s", "k"⟩
    ⟨[[("id", "u1")]], [], [[("id", "k1"), ("user_id", "u1")]]⟩
    [("id", "u2")] [("id", "k1"), ("user_id", "u2")]
  have he : (setUserModel ⟨"u", some "s", "k"⟩
      ⟨[[("id", "u1")]], [], [[("id", "k1"), ("user_id", "u1")]]⟩
      [("id", "u2")] (some [("id", "k1"), ("user_id", "u2")])).1 =
      .error (.lucia "AUTH_DUPLICATE_KEY_ID") := by rfl
  refine ⟨he, ((h.2.1) _ he).1, ((h.2.1) _ he).2, ?_⟩
  exact (h.2.2) _ "u2" he rfl rfl

/-- C8: updateUser, updateSession and updateKey leave the other two
tables untouched, rewrite their own table row-wise, leave every row
whose id does not match unchanged, and on the matching row set exactly
the supplied fields, every unsupplied column keeping its value. -/
theorem updates_apply_exactly_supplied_fields (tu st tk : String)
    (db : DBState) (id0 : String) (p : Row) :
    ((updateUserModel ⟨tu, some st, tk⟩ db id0 p).1.sessions = db.sessions ∧
     (updateUserModel ⟨tu, some st, tk⟩ db id0 p).1.keys = db.keys ∧
     (updateUserModel ⟨tu, some st, tk⟩ db id0 p).1.users =
       updateById db.users id0 p) ∧
    ((updateSessionModel ⟨tu, some st, tk⟩ db id0 p).2.1.users = db.users ∧
     (updateSessionModel ⟨tu, some st, tk⟩ db id0 p).2.1.keys = db.keys ∧
     (updateSessionModel ⟨tu, some st, tk⟩ db id0 p).2.1.sessions =
       updateById db.sessions id0 p) ∧
    ((updateKeyModel ⟨tu, some st, tk⟩ db id0 p).1.users = db.users ∧
     (updateKeyModel ⟨tu, some st, tk⟩ db id0 p).1.sessions = db.sessions ∧
     (updateKeyModel ⟨tu, some st, tk⟩ db id0 p).1.keys =
       updateById db.keys id0 p) ∧
    (∀ (rows : List Row) (i : Nat),
      (updateById rows id0 p)[i]? = (rows[i]?).map
        (fun r => if Row.getField r "id" = some id0 then applySetClause r p
          else r)) ∧
    (∀ r : Row, Row.getField r "id" ≠ some id0 →
      (if Row.getField r "id" = some id0 then applySetClause r p else r) =
        r) ∧
    (∀ (r : Row) (f : String), Row.getField p f = none →
      Row.getField (applySetClause r p) f = Row.getField r f) ∧
    (∀ (r : Row) (f v : String), Row.getField p f = some v →
      Row.getField r f ≠ none →
      Row.getField (applySetClause r p) f = some v) := by
  refine ⟨⟨rfl, rfl, rfl⟩, ⟨rfl, rfl, rfl⟩, ⟨rfl, rfl, rfl⟩, ?_, ?_, ?_, ?_⟩
  · intro rows i
    unfold updateById
    exact List.getElem?_map _ rows i
  · intro r h
    rw [if_neg h]
  · intro r f hp
    rw [getField_applySetClause, hp]
    cases hr : Row.getField r f <;> simp
  · intro r f v hp hr
    rw [getField_applySetClause, hp]
    cases hrr : Row.getField r f with
    | none => exact absurd hrr hr
    | some w => simp

/-- C8 witness: a concrete update: the supplied field takes its new
value, the unsupplied field keeps its value, and the non-matching row
is untouched. -/
theorem updates_apply_exactly_supplied_fields_witness :
    Row.getField (applySetClause
      [("id", "u1"), ("name", "alice"), ("age", "30")] [("name", "bob")])
      "name" = some "bob" ∧
    Row.getField (applySetClause
      [("id", "u1"), ("name", "alice"), ("age", "30")] [("name", "bob")])
      "age" = some "30" ∧
    (updateUserModel ⟨"u", some "s", "k"⟩
      ⟨[[("id", "u1"), ("name", "alice")], [("id", "u2"), ("name", "carol")]],
        [], []⟩ "u1" [("name", "bob")]).1.users =
      [[("id", "u1"), ("name", "bob")], [("id", "u2"), ("name", "carol")]] := by
  have h := updates_apply_exactly_supplied_fields "u" "s" "k"
    ⟨[[("id", "u1"), ("name", "alice")], [("id", "u2"), ("name", "carol")]],
      [], []⟩ "u1" [("name", "bob")]
  refine ⟨?_, ?_, ?_⟩
  · exact h.2.2.2.2.2.2 [("id", "u1"), ("name", "alice"), ("age", "30")]
      "name" "bob" rfl (by decide)
  · have h6 := h.2.2.2.2.2.1 [("id", "u1"), ("name", "alice"), ("age", "30")]
      "age" rfl
    rw [h6]
    rfl
  · rw [h.1.2.2]
    rfl

/-- C9: when getSessionAndUser returns a non-null pair, the returned
user is the joined row with the internal __session_id alias removed:
the alias is absent from the result and every other column of the
joined row is preserved. -/
theorem getSessionAndUser_strips_alias (tu st tk : String) (db : DBState)
    (sid : String) (tf : Row → Row) (s uj : Row)
    (hs : get (selectById db.sessions sid) = some s)
    (hj : get (joinUserBySessionId db sid) = some uj) :
    (getSessionAndUserModel ⟨tu, some st, tk⟩ db sid tf).1 =
      .ok (some (tf s, stripSessionId uj)) ∧
    Row.getField (stripSessionId uj) "__session_id" = none ∧
    (∀ f, f ≠ "__session_id" →
      Row.getField (stripSessionId uj) f = Row.getField uj f) := by
  refine ⟨?_, getField_strip_self uj, fun f hf => getField_strip_ne uj f hf⟩
  simp only [getSessionAndUserModel, hs, hj]

/-- C9 witness: a concrete non-null pair: the returned user has no
__session_id column and keeps the name column of the joined row. -/
theorem getSessionAndUser_strips_alias_witness :
    (getSessionAndUserModel ⟨"u", some "s", "k"⟩
      ⟨[[("id", "u1"), ("name", "alice")]], [[("id", "s1"), ("user_id", "u1")]],
        []⟩ "s1" (fun r => r)).1 =
      .ok (some ([("id", "s1"), ("user_id", "u1")],
        stripSessionId [("id", "u1"), ("name", "alice"), ("__session_id", "s1")])) ∧
    Row.getField (stripSessionId
      [("id", "u1"), ("name", "alice"), ("__session_id", "s1")])
      "__session_id" = none ∧
    Row.getField (stripSessionId
      [("id", "u1"), ("name", "alice"), ("__session_id", "s1")]) "name" =
      some "alice" := by
  have h := getSessionAndUser_strips_alias "u" "s" "k"
    ⟨[[("id", "u1"), ("name", "alice")]], [[("id", "s1"), ("user_id", "u1")]],
      []⟩ "s1" (fun r => r) [("id", "s1"), ("user_id", "u1")]
    [("id", "u1"), ("name", "alice"), ("__session_id", "s1")] rfl rfl
  refine ⟨h.1, h.2.1, ?_⟩
  rw [h.2.2 "name" (by decide)]
  rfl

/-- C4: getSessionAndUser returns the [null, null] pair when either of
its two lookups yields no row; otherwise it returns the session passed
through the external transform paired with the joined user, and (under
uniqueness of session ids, the primary key of the session table) the
id of the returned user equals the user_id of the session row. -/
theorem getSessionAndUser_pair_consistent (tu st tk : String)
    (db : DBState) (sid : String) (tf : Row → Row)
    (huniq : uniqueById db.sessions) :
    (get (selectById db.sessions sid) = none ∨
      get (joinUserBySessionId db sid) = none →
      (getSessionAndUserModel ⟨tu, some st, tk⟩ db sid tf).1 = .ok none) ∧
    (∀ s uj, get (selectById db.sessions sid) = some s →
      get (joinUserBySessionId db sid) = some uj →
      (getSessionAndUserModel ⟨tu, some st, tk⟩ db sid tf).1 =
        .ok (some (tf s, stripSessionId uj)) ∧
      Row.getField (stripSessionId uj) "id" = Row.getField s "user_id") := by
  constructor
  · intro h
    rcases h with h | h
    · cases h2 : get (joinUserBySessionId db sid) with
      | none => simp only [getSessionAndUserModel, h, h2]
      | some uj => simp only [getSessionAndUserModel, h, h2]
    · cases h2 : get (selectById db.sessions sid) with
      | none => simp only [getSessionAndUserModel, h, h2]
      | some s => simp only [getSessionAndUserModel, h, h2]
  · intro s uj hs hj
    refine ⟨by simp only [getSessionAndUserModel, hs, hj], ?_⟩
    have hfil : db.sessions.filter
        (fun r => decide (r.getField "id" = some sid)) = [s] := by
      apply filter_head_unique db.sessions sid huniq s
      unfold selectById at hs
      rw [get_def] at hs
      exact hs
    have hjoin : joinUserBySessionId db sid =
        (db.users.filter
          (fun u2 => decide (u2.getField "id" = s.getField "user_id"))).map
          (fun u2 => u2 ++ [("__session_id", (s.getField "id").getD "")]) := by
      unfold joinUserBySessionId
      rw [hfil]
      simp
    rw [hjoin, get_def] at hj
    cases hu : db.users.filter
        (fun u2 => decide (u2.getField "id" = s.getField "user_id")) with
    | nil =>
      rw [hu] at hj
      cases hj
    | cons u tu2 =>
      rw [hu] at hj
      simp only [List.map_cons, List.head?_cons, Option.some.injEq] at hj
      have humem : u ∈ db.users.filter
          (fun u2 => decide (u2.getField "id" = s.getField "user_id")) := by
        rw [hu]
        exact List.mem_cons_self u tu2
      have hid : Row.getField u "id" = s.getField "user_id" := by
        simpa using (List.mem_filter.mp humem).2
      rw [← hj]
      have hstrip := getField_strip_ne
        (u ++ [("__session_id", (s.getField "id").getD "")]) "id" (by decide)
      rw [hstrip, getField_append, hid]
      have hnone : Row.getField
          [("__session_id", (s.getField "id").getD "")] "id" = none := rfl
      rw [hnone, Option.or_none]

/-- C4 witness: concretely, a missing session id yields the null pair,
and an existing one yields the transformed session and a user whose id
equals the session user_id. -/
theorem getSessionAndUser_pair_consistent_witness :
    (getSessionAndUserModel ⟨"u", some "s", "k"⟩
      ⟨[[("id", "u1")]], [[("id", "s1"), ("user_id", "u1")]], []⟩ "zz"
      (fun r => r)).1 = .ok none ∧
    (getSessionAndUserModel ⟨"u", some "s", "k"⟩
      ⟨[[("id", "u1")]], [[("id", "s1"), ("user_id", "u1")]], []⟩ "s1"
      (fun r => r)).1 =
      .ok (some ([("id", "s1"), ("user_id", "u1")],
        stripSessionId [("id", "u1"), ("__session_id", "s1")])) ∧
    Row.getField (stripSessionId [("id", "u1"), ("__session_id", "s1")])
      "id" = Row.getField [("id", "s1"), ("user_id", "u1")] "user_id" := by
  have huniq : uniqueById [[("id", "s1"), ("user_id", "u1")]] := by
    simp [uniqueById]
  have h1 := (getSessionAndUser_pair_consistent "u" "s" "k"
    ⟨[[("id", "u1")]], [[("id", "s1"), ("user_id", "u1")]], []⟩ "zz"
    (fun r => r) huniq).1 (Or.inl rfl)
  have h2 := (getSessionAndUser_pair_consistent "u" "s" "k"
    ⟨[[("id", "u1")]], [[("id", "s1"), ("user_id", "u1")]], []⟩ "s1"
    (fun r => r) huniq).2 [("id", "s1"), ("user_id", "u1")]
    [("id", "u1"), ("__session_id", "s1")] rfl rfl
  exact ⟨h1, h2.1, h2.2⟩

/-- C2 witness: concrete translations: the 23505 Key (id) error becomes
AUTH_DUPLICATE_KEY_ID in setUser and setKey, the 23503 Key (user_id)
error becomes AUTH_INVALID_USER_ID in setSession and setKey, and a
featureless thrown value passes through all three unchanged. -/
theorem errorTranslation_domain_errors_witness :
    setUserCatch (dupIdError "x") = .lucia "AUTH_DUPLICATE_KEY_ID" ∧
    setKeyCatch (dupIdError "x") = .lucia "AUTH_DUPLICATE_KEY_ID" ∧
    setSessionCatch (fkUserError "y") = .lucia "AUTH_INVALID_USER_ID" ∧
    setKeyCatch (fkUserError "y") = .lucia "AUTH_INVALID_USER_ID" ∧
    setUserCatch (.thrown ⟨none, none, "boom"⟩) =
      .thrown ⟨none, none, "boom"⟩ ∧
    setSessionCatch (.thrown ⟨none, none, "boom"⟩) =
      .thrown ⟨none, none, "boom"⟩ ∧
    setKeyCatch (.thrown ⟨none, none, "boom"⟩) =
      .thrown ⟨none, none, "boom"⟩ := by
  have h1 := (errorTranslation_domain_errors (dupIdError "x")).1
    rfl (by decide)
  have h2 := (errorTranslation_domain_errors (fkUserError "y")).2.1
    rfl (by decide)
  have h3 := (errorTranslation_domain_errors
    (.thrown ⟨none, none, "boom"⟩)).2.2.1 (by decide)
  have h4 := (errorTranslation_domain_errors
    (.thrown ⟨none, none, "boom"⟩)).2.2.2.1 (by decide)
  have h5 := (errorTranslation_domain_errors
    (.thrown ⟨none, none, "boom"⟩)).2.2.2.2 (by decide) (by decide)
  exact ⟨h1.1, h1.2, h2.1, h2.2, h3, h4, h5⟩

/-- C6 witness: a concrete duplicate user id in plain setUser surfaces
as the raw 23505 database error and not as a LuciaError. -/
theorem setUser_without_key_no_translation_witness :
    setUserModel ⟨"u", some "s", "k"⟩ ⟨[[("id", "u1")]], [], []⟩
      [("id", "u1")] none =
      (.error (dupIdError "u1"), ⟨[[("id", "u1")]], [], []⟩, []) ∧
    ∀ s2, (setUserModel ⟨"u", some "s", "k"⟩ ⟨[[("id", "u1")]], [], []⟩
      [("id", "u1")] none).1 ≠ .error (.lucia s2) := by
  have h := (setUser_without_key_no_translation ⟨"u", some "s", "k"⟩
    ⟨[[("id", "u1")]], [], []⟩ [("id", "u1")]).2.2 (by decide)
  exact ⟨h.1, h.2⟩

/-- C7 witness: a concrete failing transaction closes the connection
last, issues a ROLLBACK and keeps the state; a succeeding one commits
and never rolls back. -/
theorem transaction_resource_discipline_witness :
    ((transaction (fun _ => (.error (.thrown ⟨none, none, "boom"⟩), ["X"]))
      ⟨[], [], []⟩).2.2).getLast? = some ClientAction.endConn ∧
    ClientAction.rollbackTx ∈ (transaction
      (fun _ => (.error (.thrown ⟨none, none, "boom"⟩), ["X"]))
      ⟨[], [], []⟩).2.2 ∧
    (transaction (fun _ => (.error (.thrown ⟨none, none, "boom"⟩), ["X"]))
      ⟨[], [], []⟩).2.1 = ⟨[], [], []⟩ ∧
    ClientAction.commitTx ∈
      (transaction (fun s => (.ok s, ["Y"])) ⟨[], [], []⟩).2.2 ∧
    ClientAction.rollbackTx ∉
      (transaction (fun s => (.ok s, ["Y"])) ⟨[], [], []⟩).2.2 := by
  have hf := transaction_resource_discipline
    (fun _ => (.error (.thrown ⟨none, none, "boom"⟩), ["X"])) ⟨[], [], []⟩
  have hs := transaction_resource_discipline
    (fun s => (.ok s, ["Y"])) ⟨[], [], []⟩
  have hferr := hf.2.1 (.thrown ⟨none, none, "boom"⟩) rfl
  have hsok := hs.2.2 rfl
  exact ⟨hf.1, hferr.1, hferr.2.2, hsok.1, hsok.2⟩

/-- C10 witness: a non-nullish value without code or detail and a
database error whose detail does not contain a matched substring both
pass through the catch blocks rethrown unchanged. -/
theorem catchBlocks_total_on_nonnullish_values_witness :
    setUserCatchRaw (.obj ⟨none, none, "boom"⟩) =
      .js (.obj ⟨none, none, "boom"⟩) ∧
    setSessionCatchRaw (.obj ⟨none, none, "boom"⟩) =
      .js (.obj ⟨none, none, "boom"⟩) ∧
    setKeyCatchRaw (.obj ⟨some "23505", some "no match here", "t"⟩) =
      .js (.obj ⟨some "23505", some "no match here", "t"⟩) := by
  have h1 := (catchBlocks_total_on_nonnullish_values
    ⟨none, none, "boom"⟩).1 rfl
  have h3 := (catchBlocks_total_on_nonnullish_values
    ⟨some "23505", some "no match here", "t"⟩).2.2.1 ⟨by decide, by decide⟩
  exact ⟨h1.1, h1.2.1, h3.2.2⟩
